import Mathlib

/-!
Verification of the admin dashboard read layer (`statsService`) and the
Sectors CRUD page workflow (`Sectors.tsx`) of the portfolio admin app.

The remote backend (Supabase/PostgREST client) is modelled as explicit
query outcomes: a query either rejects (`Except.error`) or fulfils with a
response record carrying optional `data`/`count` and an optional `error`
field, exactly the shape the source destructures.  Timestamps are
milliseconds since epoch as `Nat`; the locale day-formatting used as the
histogram bucket key is modelled by the day index `t / msPerDay`.
-/

namespace Dashboard

/-- A structured backend error as the source observes it: the only field
the source ever reads is `code` (the PostgreSQL error code string, e.g.
`23505` for a unique-constraint violation), which may be absent. -/
structure ApiError where
  code : Option String
  deriving Repr, DecidableEq

/-- Fulfilled response of a head-only counting query: `count` is `null`
(`none`) or a non-negative row count; `error` is the per-result error
field, which `getDashboardStats` never inspects. -/
structure CountResult where
  count : Option Nat
  error : Option ApiError
  deriving Repr, DecidableEq

/-- The eight-key record returned by `getDashboardStats` (interface
`DashboardStats` in the source).  Each field is a `Nat`, so every key is
present and non-negative by construction. -/
structure DashboardStats where
  contactsCount : Nat
  projectsCount : Nat
  blogPostsCount : Nat
  servicesCount : Nat
  sectorsCount : Nat
  navigationItemsCount : Nat
  skillsCount : Nat
  chatbotKnowledgeCount : Nat
  deriving Repr, DecidableEq

/-- `getDashboardStats`: awaits the eight parallel count queries
(`Promise.all` rejects the aggregate as soon as any query rejects, and the
outer catch re-raises), then coalesces each fulfilled `count` with
`count || 0`.  Modelled on `Except`: a rejected input short-circuits the
whole computation, a fulfilled one contributes `count.getD 0`. -/
def getDashboardStats
    (contactsResult projectsResult blogPostsResult servicesResult
     sectorsResult navigationResult skillsResult chatbotResult :
      Except ApiError CountResult) : Except ApiError DashboardStats := do
  let c ← contactsResult
  let p ← projectsResult
  let b ← blogPostsResult
  let sv ← servicesResult
  let se ← sectorsResult
  let nv ← navigationResult
  let sk ← skillsResult
  let ch ← chatbotResult
  pure {
    contactsCount := c.count.getD 0
    projectsCount := p.count.getD 0
    blogPostsCount := b.count.getD 0
    servicesCount := sv.count.getD 0
    sectorsCount := se.count.getD 0
    navigationItemsCount := nv.count.getD 0
    skillsCount := sk.count.getD 0
    chatbotKnowledgeCount := ch.count.getD 0 }

/-- Fulfilled response of a row-returning query: `data` is `null`
(`none`) or the selected rows, `error` the per-result error field. -/
structure QueryResponse (α : Type) where
  data : Option (List α)
  error : Option ApiError

/-- Row projection selected by `getRecentContacts`. -/
structure Contact where
  id : Nat
  name : String
  email : String
  created_at : Nat
  deriving Repr, DecidableEq

/-- Row projection selected by `getRecentProjects`. -/
structure Project where
  id : Nat
  title : String
  status : String
  created_at : Nat
  deriving Repr, DecidableEq

/-- Row projection selected by `getRecentBlogPosts`. -/
structure BlogPost where
  id : Nat
  title : String
  status : String
  published_at : Option Nat
  created_at : Nat
  deriving Repr, DecidableEq

/-- Descending order on a `Nat`-valued key: `descBy key a b` holds when
`a`s key is at least `b`s key (most recent first when the key is a
creation timestamp). -/
def descBy (key : α → Nat) (a b : α) : Prop := key b ≤ key a

instance (key : α → Nat) : DecidableRel (descBy key) :=
  fun a b => Nat.decLe (key b) (key a)

instance (key : α → Nat) : IsTotal α (descBy key) :=
  ⟨fun a b => Nat.le_total (key b) (key a)⟩

instance (key : α → Nat) : IsTrans α (descBy key) :=
  ⟨fun _ _ _ h1 h2 => Nat.le_trans h2 h1⟩

/-- Semantics of the query chain
`.order(t, descending).limit(lim)` issued by the three recent-item
readers: the table rows sorted by `key` descending, capped at `lim`. -/
def runRecentQuery (key : α → Nat) (table : List α) (lim : Nat) : List α :=
  (List.insertionSort (descBy key) table).take lim

/-- Shared body of the three recent-item readers: a rejection or a
fulfilled response carrying an `error` is caught (`if (error) throw`,
then the outer catch) and masked as `[]`; otherwise `data || []`. -/
def recentReader (response : Except ApiError (QueryResponse α)) : List α :=
  match response with
  | .error _ => []
  | .ok r =>
    match r.error with
    | some _ => []
    | none => r.data.getD []

/-- `getRecentContacts(limit = 5)`: issues its select/order/limit query
through `fetch` (the backend collaborator, receiving the requested row
cap) and masks any failure as `[]`. -/
def getRecentContacts
    (fetch : Nat → Except ApiError (QueryResponse Contact))
    (limit : Nat := 5) : List Contact :=
  recentReader (fetch limit)

/-- `getRecentProjects(limit = 5)`: issues its select/order/limit query
through `fetch` and masks any failure as `[]`. -/
def getRecentProjects
    (fetch : Nat → Except ApiError (QueryResponse Project))
    (limit : Nat := 5) : List Project :=
  recentReader (fetch limit)

/-- `getRecentBlogPosts(limit = 5)`: issues its select/order/limit query
through `fetch` and masks any failure as `[]`. -/
def getRecentBlogPosts
    (fetch : Nat → Except ApiError (QueryResponse BlogPost))
    (limit : Nat := 5) : List BlogPost :=
  recentReader (fetch limit)

/-- The honest backend behaviour for a recent-items query against a table
whose rows have creation key `key`: fulfil with the rows ordered by
`key` descending, capped at the requested limit, and no error. -/
def honestRecentFetch (key : α → Nat) (table : List α) :
    Nat → Except ApiError (QueryResponse α) :=
  fun lim => .ok ⟨some (runRecentQuery key table lim), none⟩

/-- Milliseconds per day. -/
def msPerDay : Nat := 86400000

/-- Day bucket key of a timestamp: models
`new Date(created_at).toLocaleDateString(..)` — two timestamps share a
bucket exactly when they fall on the same day. -/
def dayKey (t : Nat) : Nat := t / msPerDay

/-- The 30-day lookback boundary computed at the top of
`getStatsEvolution` (`setDate(getDate() - 30)`). -/
def thirtyDaysAgo (now : Nat) : Nat := now - 30 * msPerDay

/-- Semantics of the `.select(created_at).gte(created_at, cutoff)`
query issued per entity kind: the creation timestamps of the rows at or
after the cutoff. -/
def evolutionQuery (cutoff : Nat) (table : List Nat) : List Nat :=
  table.filter (fun t => cutoff ≤ t)

/-- One step of the source's `groupByDay` accumulator:
`grouped[date] = (grouped[date] || 0) + 1`, on an association list. -/
def bump (m : List (Nat × Nat)) (k : Nat) : List (Nat × Nat) :=
  match m with
  | [] => [(k, 1)]
  | (k0, v) :: rest =>
    if k0 = k then (k0, v + 1) :: rest else (k0, v) :: bump rest k

/-- `groupByDay`: folds the fetched creation timestamps into a sparse
per-day count map keyed by `dayKey`. -/
def groupByDay (items : List Nat) : List (Nat × Nat) :=
  items.foldl (fun m t => bump m (dayKey t)) []

/-- The bucket keys of a day-count map. -/
def keysOf (m : List (Nat × Nat)) : List Nat := m.map Prod.fst

/-- The sum of all bucket values of a day-count map. -/
def sumValues (m : List (Nat × Nat)) : Nat := (m.map Prod.snd).sum

/-- The fulfilled value of the `Promise.all` batch inside
`getStatsEvolution`: one per-kind response, each carrying the selected
`created_at` values. -/
structure EvolutionBatch where
  contactsData : QueryResponse Nat
  projectsData : QueryResponse Nat
  blogPostsData : QueryResponse Nat

/-- The three per-kind day-count maps returned by `getStatsEvolution`. -/
structure StatsEvolution where
  contacts : List (Nat × Nat)
  projects : List (Nat × Nat)
  blogPosts : List (Nat × Nat)
  deriving Repr, DecidableEq

/-- `getStatsEvolution`: a rejected batch is caught and masked with three
empty maps; a fulfilled batch has each kind's `data || []` grouped by
day (the per-response `error` field is never inspected here). -/
def getStatsEvolution (batch : Except ApiError EvolutionBatch) :
    StatsEvolution :=
  match batch with
  | .error _ => ⟨[], [], []⟩
  | .ok b =>
    ⟨groupByDay (b.contactsData.data.getD []),
     groupByDay (b.projectsData.data.getD []),
     groupByDay (b.blogPostsData.data.getD [])⟩

end Dashboard

namespace Sectors

open Dashboard (ApiError)

/-- The fields of a persisted sector observed by the Sectors page
(`editingSector.id`, `deletingSector.title`). -/
structure Sector where
  id : String
  title : String
  deriving Repr, DecidableEq

/-- Flattened create/edit form shape (`SectorFormData`): the nested
case-study and modal-content fields are spread into top-level fields. -/
structure SectorFormData where
  id : String
  title : String
  description : String
  services : List String
  icon : String
  image : String
  hero_title : String
  hero_subtitle : String
  modal_description : String
  highlights : List String
  tech_stack : List String
  case_study_title : String
  case_study_results : List String
  cta_text : String
  deriving Repr, DecidableEq

/-- Nested case-study object inside `content_modal`. -/
structure CaseStudy where
  title : String
  results : List String
  deriving Repr, DecidableEq

/-- Nested `content_modal` persistence shape built at submit time. -/
structure ContentModal where
  hero_title : String
  hero_subtitle : String
  description : String
  highlights : List String
  tech_stack : List String
  case_study : CaseStudy
  cta_text : String
  deriving Repr, DecidableEq

/-- Sector document in the shape the API expects (`sectorData`). -/
structure SectorData where
  id : String
  title : String
  description : String
  services : List String
  icon : String
  image : String
  content_modal : ContentModal
  deriving Repr, DecidableEq

/-- Local UI state of the Sectors page: the two modal open-flags and the
current edit/delete targets. -/
structure PageState where
  isModalOpen : Bool
  isDeleteModalOpen : Bool
  editingSector : Option Sector
  deletingSector : Option Sector
  deriving Repr, DecidableEq

/-- A user-visible notification emitted through the toast library. -/
inductive Toast where
  | success (msg : String)
  | error (msg : String)
  deriving Repr, DecidableEq

/-- Everything `handleSubmit` produces: the updated page state, the
toasts emitted in order, and the sector document sent to the mutation. -/
structure SubmitOutcome where
  state : PageState
  toasts : List Toast
  payload : SectorData
  deriving Repr, DecidableEq

/-- `handleSubmit(formData)`: reassembles the flattened form into the
nested `content_modal` shape, dispatches update (edit target set) or
create (no edit target), and on the mutation outcome either closes the
modal with a success toast or leaves all state untouched and emits the
error toast — the duplicate-id message when the error code is the
unique-constraint violation `23505`, else the mode-specific generic
message. -/
def handleSubmit (st : PageState) (f : SectorFormData)
    (mutationResult : Except ApiError Unit) : SubmitOutcome :=
  let content_modal : ContentModal :=
    { hero_title := f.hero_title
      hero_subtitle := f.hero_subtitle
      description := f.modal_description
      highlights := f.highlights
      tech_stack := f.tech_stack
      case_study := { title := f.case_study_title, results := f.case_study_results }
      cta_text := f.cta_text }
  let sectorData : SectorData :=
    { id := f.id
      title := f.title
      description := f.description
      services := f.services
      icon := f.icon
      image := f.image
      content_modal := content_modal }
  match mutationResult with
  | .ok _ =>
    let successMsg :=
      match st.editingSector with
      | some _ => "Secteur mis à jour avec succès !"
      | none => "Secteur créé avec succès !"
    { state := { st with isModalOpen := false, editingSector := none }
      toasts := [Toast.success successMsg]
      payload := sectorData }
  | .error e =>
    let errorMsg :=
      if e.code = some "23505" then
        "Un secteur avec cet ID existe déjà."
      else
        match st.editingSector with
        | some _ => "Erreur lors de la mise à jour du secteur."
        | none => "Erreur lors de la création du secteur."
    { state := st
      toasts := [Toast.error errorMsg]
      payload := sectorData }

/-- `handleConfirmDelete()`: a no-op when no delete target is set;
otherwise, on mutation success emits the success toast, closes the
confirm modal and clears the target, and on failure emits only the
failure toast, leaving the modal flag and target untouched. -/
def handleConfirmDelete (st : PageState)
    (mutationResult : Except ApiError Unit) : PageState × List Toast :=
  match st.deletingSector with
  | none => (st, [])
  | some _ =>
    match mutationResult with
    | .ok _ =>
      ({ st with isDeleteModalOpen := false, deletingSector := none },
       [Toast.success "Secteur supprimé avec succès !"])
    | .error _ =>
      (st, [Toast.error "Erreur lors de la suppression du secteur."])

end Sectors

open Dashboard Sectors

/-! ### Helper lemmas about the day-grouping accumulator -/

theorem sumValues_bump (m : List (Nat × Nat)) (k : Nat) :
    sumValues (bump m k) = sumValues m + 1 := by
  induction m with
  | nil => rfl
  | cons hd tl ih =>
    obtain ⟨k0, v⟩ := hd
    by_cases h : k0 = k
    · simp [bump, h, sumValues]
      omega
    · simp [bump, h, sumValues] at ih ⊢
      omega

theorem keysOf_bump (m : List (Nat × Nat)) (k k0 : Nat)
    (h : k0 ∈ keysOf (bump m k)) : k0 ∈ keysOf m ∨ k0 = k := by
  induction m with
  | nil =>
    simp [bump, keysOf] at h
    exact Or.inr h
  | cons hd tl ih =>
    obtain ⟨k1, v⟩ := hd
    by_cases hk : k1 = k
    · simp [bump, hk, keysOf] at h ⊢
      rcases h with h | h
      · exact Or.inl (Or.inl h)
      · exact Or.inl (Or.inr h)
    · simp [bump, hk, keysOf] at h ⊢
      rcases h with h | h
      · exact Or.inl (Or.inl h)
      · rcases ih (by simpa [keysOf] using h) with h2 | h2
        · exact Or.inl (Or.inr (by simpa [keysOf] using h2))
        · exact Or.inr h2

theorem sumValues_foldl (ts : List Nat) :
    ∀ m : List (Nat × Nat),
      sumValues (ts.foldl (fun m t => bump m (dayKey t)) m) =
        sumValues m + ts.length := by
  induction ts with
  | nil => intro m; simp
  | cons t ts ih =>
    intro m
    simp only [List.foldl_cons, ih, sumValues_bump, List.length_cons]
    omega

theorem keysOf_foldl (ts : List Nat) :
    ∀ (m : List (Nat × Nat)) (k : Nat),
      k ∈ keysOf (ts.foldl (fun m t => bump m (dayKey t)) m) →
        k ∈ keysOf m ∨ ∃ t ∈ ts, dayKey t = k := by
  induction ts with
  | nil => intro m k h; exact Or.inl h
  | cons t ts ih =>
    intro m k h
    rcases ih (bump m (dayKey t)) k h with h2 | h2
    · rcases keysOf_bump m (dayKey t) k h2 with h3 | h3
      · exact Or.inl h3
      · exact Or.inr ⟨t, by simp, h3.symm⟩
    · obtain ⟨u, hu, hk⟩ := h2
      exact Or.inr ⟨u, by simp [hu], hk⟩

theorem sumValues_groupByDay (ts : List Nat) :
    sumValues (groupByDay ts) = ts.length := by
  simpa [groupByDay, sumValues] using sumValues_foldl ts []

theorem keysOf_groupByDay (ts : List Nat) (k : Nat)
    (h : k ∈ keysOf (groupByDay ts)) : ∃ t ∈ ts, dayKey t = k := by
  rcases keysOf_foldl ts [] k h with h2 | h2
  · simp [keysOf] at h2
  · exact h2

theorem dayKey_mono {a b : Nat} (h : a ≤ b) : dayKey a ≤ dayKey b :=
  Nat.div_le_div_right h

theorem evolutionKind_keys (now cutoff : Nat) (table : List Nat)
    (h : ∀ t ∈ table, t ≤ now) :
    ∀ k ∈ keysOf (groupByDay (evolutionQuery cutoff table)),
      dayKey cutoff ≤ k ∧ k ≤ dayKey now := by
  intro k hk
  obtain ⟨t, ht, hdk⟩ := keysOf_groupByDay _ k hk
  simp only [evolutionQuery, List.mem_filter, decide_eq_true_eq] at ht
  exact ⟨hdk ▸ dayKey_mono ht.2, hdk ▸ dayKey_mono (h t ht.1)⟩

theorem evolutionKind_sum (now cutoff : Nat) (table : List Nat)
    (h : ∀ t ∈ table, t ≤ now) :
    sumValues (groupByDay (evolutionQuery cutoff table)) =
      (table.filter (fun t => cutoff ≤ t ∧ t ≤ now)).length := by
  rw [sumValues_groupByDay, evolutionQuery]
  congr 1
  refine List.filter_congr fun t ht => ?_
  simp [h t ht]

/-! ### Claim theorems -/

/-- C1: for every set of per-collection count results, including results
whose count is null, `getDashboardStats` returns a record containing all
eight entity-kind keys, each a non-negative integer (`Nat`), with null
counts mapped to 0. -/
theorem getDashboardStats_eight_keys
    (r1 r2 r3 r4 r5 r6 r7 r8 : CountResult) :
    ∃ s : DashboardStats,
      getDashboardStats (.ok r1) (.ok r2) (.ok r3) (.ok r4)
        (.ok r5) (.ok r6) (.ok r7) (.ok r8) = .ok s ∧
      (s.contactsCount = r1.count.getD 0 ∧ (r1.count = none → s.contactsCount = 0)) ∧
      (s.projectsCount = r2.count.getD 0 ∧ (r2.count = none → s.projectsCount = 0)) ∧
      (s.blogPostsCount = r3.count.getD 0 ∧ (r3.count = none → s.blogPostsCount = 0)) ∧
      (s.servicesCount = r4.count.getD 0 ∧ (r4.count = none → s.servicesCount = 0)) ∧
      (s.sectorsCount = r5.count.getD 0 ∧ (r5.count = none → s.sectorsCount = 0)) ∧
      (s.navigationItemsCount = r6.count.getD 0 ∧ (r6.count = none → s.navigationItemsCount = 0)) ∧
      (s.skillsCount = r7.count.getD 0 ∧ (r7.count = none → s.skillsCount = 0)) ∧
      (s.chatbotKnowledgeCount = r8.count.getD 0 ∧ (r8.count = none → s.chatbotKnowledgeCount = 0)) := by
  refine ⟨_, rfl, ?_, ?_, ?_, ?_, ?_, ?_, ?_, ?_⟩ <;>
    exact ⟨rfl, fun h => by simp [h]⟩

/-- C1 witness: at all-null counts the aggregate succeeds and every key
is 0. -/
theorem getDashboardStats_eight_keys_witness :
    ∃ s : DashboardStats,
      getDashboardStats (.ok ⟨none, none⟩) (.ok ⟨none, none⟩)
        (.ok ⟨none, none⟩) (.ok ⟨none, none⟩) (.ok ⟨none, none⟩)
        (.ok ⟨none, none⟩) (.ok ⟨none, none⟩) (.ok ⟨none, none⟩) = .ok s ∧
      s.contactsCount = 0 ∧ s.projectsCount = 0 ∧ s.blogPostsCount = 0 ∧
      s.servicesCount = 0 ∧ s.sectorsCount = 0 ∧ s.navigationItemsCount = 0 ∧
      s.skillsCount = 0 ∧ s.chatbotKnowledgeCount = 0 := by
  obtain ⟨s, hs, h1, h2, h3, h4, h5, h6, h7, h8⟩ :=
    getDashboardStats_eight_keys ⟨none, none⟩ ⟨none, none⟩ ⟨none, none⟩
      ⟨none, none⟩ ⟨none, none⟩ ⟨none, none⟩ ⟨none, none⟩ ⟨none, none⟩
  exact ⟨s, hs, h1.2 rfl, h2.2 rfl, h3.2 rfl, h4.2 rfl, h5.2 rfl,
    h6.2 rfl, h7.2 rfl, h8.2 rfl⟩

/-- C9: a count query that settles fulfilled but carries a per-result
error with a null count does not fail the aggregate — `getDashboardStats`
still succeeds and reports 0 for that entity kind, for each of the eight
positions, because only promise rejections are inspected, never the
error field of a fulfilled result. -/
theorem getDashboardStats_ignores_fulfilled_error
    (r1 r2 r3 r4 r5 r6 r7 r8 : CountResult) (e : ApiError) :
    (r1.error = some e → r1.count = none →
      ∃ s, getDashboardStats (.ok r1) (.ok r2) (.ok r3) (.ok r4)
        (.ok r5) (.ok r6) (.ok r7) (.ok r8) = .ok s ∧ s.contactsCount = 0) ∧
    (r2.error = some e → r2.count = none →
      ∃ s, getDashboardStats (.ok r1) (.ok r2) (.ok r3) (.ok r4)
        (.ok r5) (.ok r6) (.ok r7) (.ok r8) = .ok s ∧ s.projectsCount = 0) ∧
    (r3.error = some e → r3.count = none →
      ∃ s, getDashboardStats (.ok r1) (.ok r2) (.ok r3) (.ok r4)
        (.ok r5) (.ok r6) (.ok r7) (.ok r8) = .ok s ∧ s.blogPostsCount = 0) ∧
    (r4.error = some e → r4.count = none →
      ∃ s, getDashboardStats (.ok r1) (.ok r2) (.ok r3) (.ok r4)
        (.ok r5) (.ok r6) (.ok r7) (.ok r8) = .ok s ∧ s.servicesCount = 0) ∧
    (r5.error = some e → r5.count = none →
      ∃ s, getDashboardStats (.ok r1) (.ok r2) (.ok r3) (.ok r4)
        (.ok r5) (.ok r6) (.ok r7) (.ok r8) = .ok s ∧ s.sectorsCount = 0) ∧
    (r6.error = some e → r6.count = none →
      ∃ s, getDashboardStats (.ok r1) (.ok r2) (.ok r3) (.ok r4)
        (.ok r5) (.ok r6) (.ok r7) (.ok r8) = .ok s ∧ s.navigationItemsCount = 0) ∧
    (r7.error = some e → r7.count = none →
      ∃ s, getDashboardStats (.ok r1) (.ok r2) (.ok r3) (.ok r4)
        (.ok r5) (.ok r6) (.ok r7) (.ok r8) = .ok s ∧ s.skillsCount = 0) ∧
    (r8.error = some e → r8.count = none →
      ∃ s, getDashboardStats (.ok r1) (.ok r2) (.ok r3) (.ok r4)
        (.ok r5) (.ok r6) (.ok r7) (.ok r8) = .ok s ∧ s.chatbotKnowledgeCount = 0) := by
  refine ⟨?_, ?_, ?_, ?_, ?_, ?_, ?_, ?_⟩ <;>
    exact fun _ h => ⟨_, rfl, by simp [h]⟩

/-- C9 witness: with every result fulfilled as `{count: null, error:
present}`, the aggregate succeeds and each key is 0. -/
theorem getDashboardStats_ignores_fulfilled_error_witness :
    (∃ s, getDashboardStats (.ok ⟨none, some ⟨some "XX000"⟩⟩)
        (.ok ⟨none, some ⟨some "XX000"⟩⟩) (.ok ⟨none, some ⟨some "XX000"⟩⟩)
        (.ok ⟨none, some ⟨some "XX000"⟩⟩) (.ok ⟨none, some ⟨some "XX000"⟩⟩)
        (.ok ⟨none, some ⟨some "XX000"⟩⟩) (.ok ⟨none, some ⟨some "XX000"⟩⟩)
        (.ok ⟨none, some ⟨some "XX000"⟩⟩) = .ok s ∧ s.contactsCount = 0) ∧
    (∃ s, getDashboardStats (.ok ⟨none, some ⟨some "XX000"⟩⟩)
        (.ok ⟨none, some ⟨some "XX000"⟩⟩) (.ok ⟨none, some ⟨some "XX000"⟩⟩)
        (.ok ⟨none, some ⟨some "XX000"⟩⟩) (.ok ⟨none, some ⟨some "XX000"⟩⟩)
        (.ok ⟨none, some ⟨some "XX000"⟩⟩) (.ok ⟨none, some ⟨some "XX000"⟩⟩)
        (.ok ⟨none, some ⟨some "XX000"⟩⟩) = .ok s ∧ s.chatbotKnowledgeCount = 0) := by
  obtain ⟨h1, _, _, _, _, _, _, h8⟩ :=
    getDashboardStats_ignores_fulfilled_error
      ⟨none, some ⟨some "XX000"⟩⟩ ⟨none, some ⟨some "XX000"⟩⟩
      ⟨none, some ⟨some "XX000"⟩⟩ ⟨none, some ⟨some "XX000"⟩⟩
      ⟨none, some ⟨some "XX000"⟩⟩ ⟨none, some ⟨some "XX000"⟩⟩
      ⟨none, some ⟨some "XX000"⟩⟩ ⟨none, some ⟨some "XX000"⟩⟩ ⟨some "XX000"⟩
  exact ⟨h1 rfl rfl, h8 rfl rfl⟩

/-- C2: the best-effort readers never raise to the caller — the three
recent-item readers return `[]` both when their query rejects and when
it fulfils carrying an error, and `getStatsEvolution` returns three
empty maps when its batch rejects. -/
theorem bestEffort_readers_masked :
    (∀ (e : ApiError) (lim : Nat),
      getRecentContacts (fun _ => .error e) lim = []) ∧
    (∀ (d : Option (List Contact)) (err : ApiError) (lim : Nat),
      getRecentContacts (fun _ => .ok ⟨d, some err⟩) lim = []) ∧
    (∀ (e : ApiError) (lim : Nat),
      getRecentProjects (fun _ => .error e) lim = []) ∧
    (∀ (d : Option (List Project)) (err : ApiError) (lim : Nat),
      getRecentProjects (fun _ => .ok ⟨d, some err⟩) lim = []) ∧
    (∀ (e : ApiError) (lim : Nat),
      getRecentBlogPosts (fun _ => .error e) lim = []) ∧
    (∀ (d : Option (List BlogPost)) (err : ApiError) (lim : Nat),
      getRecentBlogPosts (fun _ => .ok ⟨d, some err⟩) lim = []) ∧
    (∀ e : ApiError,
      getStatsEvolution (.error e) = ⟨[], [], []⟩) :=
  ⟨fun _ _ => rfl, fun _ _ _ => rfl, fun _ _ => rfl, fun _ _ _ => rfl,
   fun _ _ => rfl, fun _ _ _ => rfl, fun _ => rfl⟩

/-- C5: against the honest backend, each recent-items reader returns at
most `limit` items ordered non-increasingly by creation timestamp, and
an omitted limit argument defaults to 5. -/
theorem recent_readers_bounded_and_sorted
    (dbc : List Contact) (dbp : List Project) (dbb : List BlogPost)
    (lim : Nat) :
    ((getRecentContacts (honestRecentFetch Contact.created_at dbc) lim).length ≤ lim ∧
      List.Sorted (descBy Contact.created_at)
        (getRecentContacts (honestRecentFetch Contact.created_at dbc) lim)) ∧
    ((getRecentProjects (honestRecentFetch Project.created_at dbp) lim).length ≤ lim ∧
      List.Sorted (descBy Project.created_at)
        (getRecentProjects (honestRecentFetch Project.created_at dbp) lim)) ∧
    ((getRecentBlogPosts (honestRecentFetch BlogPost.created_at dbb) lim).length ≤ lim ∧
      List.Sorted (descBy BlogPost.created_at)
        (getRecentBlogPosts (honestRecentFetch BlogPost.created_at dbb) lim)) ∧
    (∀ fetch : Nat → Except ApiError (QueryResponse Contact),
      getRecentContacts fetch = getRecentContacts fetch 5) ∧
    (∀ fetch : Nat → Except ApiError (QueryResponse Project),
      getRecentProjects fetch = getRecentProjects fetch 5) ∧
    (∀ fetch : Nat → Except ApiError (QueryResponse BlogPost),
      getRecentBlogPosts fetch = getRecentBlogPosts fetch 5) := by
  refine ⟨⟨?_, ?_⟩, ⟨?_, ?_⟩, ⟨?_, ?_⟩, fun _ => rfl, fun _ => rfl, fun _ => rfl⟩
  · show ((List.insertionSort (descBy Contact.created_at) dbc).take lim).length ≤ lim
    simp [List.length_take]
  · exact List.Pairwise.sublist (List.take_sublist lim _)
      (List.sorted_insertionSort (descBy Contact.created_at) dbc)
  · show ((List.insertionSort (descBy Project.created_at) dbp).take lim).length ≤ lim
    simp [List.length_take]
  · exact List.Pairwise.sublist (List.take_sublist lim _)
      (List.sorted_insertionSort (descBy Project.created_at) dbp)
  · show ((List.insertionSort (descBy BlogPost.created_at) dbb).take lim).length ≤ lim
    simp [List.length_take]
  · exact List.Pairwise.sublist (List.take_sublist lim _)
      (List.sorted_insertionSort (descBy BlogPost.created_at) dbb)

/-- The honest backend behaviour for the evolution batch: the three
`gte(created_at, thirtyDaysAgo)` queries fulfil with exactly the
timestamps at or after the cutoff, with no error. -/
def honestEvolutionBatch (now : Nat) (ct pt bt : List Nat) :
    Except ApiError EvolutionBatch :=
  .ok ⟨⟨some (evolutionQuery (thirtyDaysAgo now) ct), none⟩,
       ⟨some (evolutionQuery (thirtyDaysAgo now) pt), none⟩,
       ⟨some (evolutionQuery (thirtyDaysAgo now) bt), none⟩⟩

/-- C3: provided every stored creation timestamp is at most the query
time, each per-kind bucket map of `getStatsEvolution` only has keys for
days inside the trailing 30-day window, and the sum of a kind's bucket
values equals the number of that kind's items created in the window. -/
theorem getStatsEvolution_window_and_totals (now : Nat)
    (ct pt bt : List Nat)
    (hc : ∀ t ∈ ct, t ≤ now) (hp : ∀ t ∈ pt, t ≤ now)
    (hb : ∀ t ∈ bt, t ≤ now) :
    (∀ k ∈ keysOf (getStatsEvolution (honestEvolutionBatch now ct pt bt)).contacts,
      dayKey (thirtyDaysAgo now) ≤ k ∧ k ≤ dayKey now) ∧
    sumValues (getStatsEvolution (honestEvolutionBatch now ct pt bt)).contacts =
      (ct.filter (fun t => thirtyDaysAgo now ≤ t ∧ t ≤ now)).length ∧
    (∀ k ∈ keysOf (getStatsEvolution (honestEvolutionBatch now ct pt bt)).projects,
      dayKey (thirtyDaysAgo now) ≤ k ∧ k ≤ dayKey now) ∧
    sumValues (getStatsEvolution (honestEvolutionBatch now ct pt bt)).projects =
      (pt.filter (fun t => thirtyDaysAgo now ≤ t ∧ t ≤ now)).length ∧
    (∀ k ∈ keysOf (getStatsEvolution (honestEvolutionBatch now ct pt bt)).blogPosts,
      dayKey (thirtyDaysAgo now) ≤ k ∧ k ≤ dayKey now) ∧
    sumValues (getStatsEvolution (honestEvolutionBatch now ct pt bt)).blogPosts =
      (bt.filter (fun t => thirtyDaysAgo now ≤ t ∧ t ≤ now)).length :=
  ⟨evolutionKind_keys now (thirtyDaysAgo now) ct hc,
   evolutionKind_sum now (thirtyDaysAgo now) ct hc,
   evolutionKind_keys now (thirtyDaysAgo now) pt hp,
   evolutionKind_sum now (thirtyDaysAgo now) pt hp,
   evolutionKind_keys now (thirtyDaysAgo now) bt hb,
   evolutionKind_sum now (thirtyDaysAgo now) bt hb⟩

/-- C3 witness: at day 30 (in ms) with two contact rows (one on the
boundary day 0), one project row and no blog rows, the per-kind bucket
sums equal the in-window item counts. -/
theorem getStatsEvolution_window_and_totals_witness :
    sumValues (getStatsEvolution
      (honestEvolutionBatch 2592000000 [2592000000, 0] [86400000] [])).contacts = 2 ∧
    sumValues (getStatsEvolution
      (honestEvolutionBatch 2592000000 [2592000000, 0] [86400000] [])).projects = 1 ∧
    sumValues (getStatsEvolution
      (honestEvolutionBatch 2592000000 [2592000000, 0] [86400000] [])).blogPosts = 0 := by
  obtain ⟨-, hc, -, hp, -, hb⟩ :=
    getStatsEvolution_window_and_totals 2592000000 [2592000000, 0] [86400000] []
      (by decide) (by decide) (by decide)
  refine ⟨?_, ?_, ?_⟩
  · rw [hc]; decide
  · rw [hp]; decide
  · rw [hb]; decide

/-- A concrete persisted sector, used as a sample edit/delete target. -/
def sampleSector : Sectors.Sector := ⟨"industrie", "Industrie"⟩

/-- A concrete filled-in create/edit form. -/
def sampleForm : Sectors.SectorFormData :=
  ⟨"sante", "Sante", "Secteur de la sante", ["Audit"], "heart", "img.png",
   "Hero titre", "Hero sous-titre", "Description modale", ["Point 1"],
   ["React"], "Etude de cas", ["Resultat 1"], "Nous contacter"⟩

/-- Page state with the create/edit modal open in create mode. -/
def createOpenState : Sectors.PageState := ⟨true, false, none, none⟩

/-- Page state with the create/edit modal open in edit mode. -/
def editOpenState : Sectors.PageState := ⟨true, false, some sampleSector, none⟩

/-- Page state with the delete-confirm modal open on a target. -/
def deleteOpenState : Sectors.PageState := ⟨false, true, none, some sampleSector⟩

/-- C4: for every submitted create form, the persisted sector document's
nested `content_modal.case_study` equals `{title, results}` built
exactly from the form's `case_study_title` and `case_study_results`. -/
theorem create_case_study_roundtrip (st : Sectors.PageState)
    (f : Sectors.SectorFormData) (r : Except ApiError Unit)
    (_hcreate : st.editingSector = none) :
    (Sectors.handleSubmit st f r).payload.content_modal.case_study =
      { title := f.case_study_title, results := f.case_study_results } := by
  cases r <;> rfl

/-- C4 witness: the sample create form round-trips its case-study
fields into the persisted nested shape. -/
theorem create_case_study_roundtrip_witness :
    (Sectors.handleSubmit createOpenState sampleForm (.ok ())).payload.content_modal.case_study =
      { title := "Etude de cas", results := ["Resultat 1"] } :=
  create_case_study_roundtrip createOpenState sampleForm (.ok ()) rfl

/-- C6: a create submission failing with the unique-constraint code
`23505` shows the duplicate-identifier message; a create submission
failing with any other error shows the generic create-failure message. -/
theorem create_duplicate_vs_generic (st : Sectors.PageState)
    (f : Sectors.SectorFormData) (e : ApiError)
    (_hcreate : st.editingSector = none) :
    (e.code = some "23505" →
      (Sectors.handleSubmit st f (.error e)).toasts =
        [Sectors.Toast.error "Un secteur avec cet ID existe déjà."]) ∧
    (e.code ≠ some "23505" →
      (Sectors.handleSubmit st f (.error e)).toasts =
        [Sectors.Toast.error "Erreur lors de la création du secteur."]) := by
  constructor
  · intro h
    simp [Sectors.handleSubmit, h]
  · intro h
    simp [Sectors.handleSubmit, h, _hcreate]

/-- C6 witness: the duplicate-id code yields the duplicate message and
an unrelated code yields the generic create-failure message. -/
theorem create_duplicate_vs_generic_witness :
    (Sectors.handleSubmit createOpenState sampleForm (.error ⟨some "23505"⟩)).toasts =
      [Sectors.Toast.error "Un secteur avec cet ID existe déjà."] ∧
    (Sectors.handleSubmit createOpenState sampleForm (.error ⟨some "42P01"⟩)).toasts =
      [Sectors.Toast.error "Erreur lors de la création du secteur."] :=
  ⟨(create_duplicate_vs_generic createOpenState sampleForm ⟨some "23505"⟩ rfl).1 rfl,
   (create_duplicate_vs_generic createOpenState sampleForm ⟨some "42P01"⟩ rfl).2 (by decide)⟩

/-- C7: a successful submit emits a success toast, closes the
create/edit modal and clears the edit target; a failed submit leaves the
modal open and the edit target unchanged and emits an error toast. -/
theorem submit_success_failure_transitions (st : Sectors.PageState)
    (f : Sectors.SectorFormData) (e : ApiError)
    (hopen : st.isModalOpen = true) :
    ((Sectors.handleSubmit st f (.ok ())).state.isModalOpen = false) ∧
    ((Sectors.handleSubmit st f (.ok ())).state.editingSector = none) ∧
    (∃ m, (Sectors.handleSubmit st f (.ok ())).toasts = [Sectors.Toast.success m]) ∧
    ((Sectors.handleSubmit st f (.error e)).state.isModalOpen = true) ∧
    ((Sectors.handleSubmit st f (.error e)).state.editingSector = st.editingSector) ∧
    (∃ m, (Sectors.handleSubmit st f (.error e)).toasts = [Sectors.Toast.error m]) :=
  ⟨rfl, rfl, ⟨_, rfl⟩, hopen, rfl, ⟨_, rfl⟩⟩

/-- C7 witness: the transitions at a concrete open edit modal. -/
theorem submit_success_failure_transitions_witness :
    ((Sectors.handleSubmit editOpenState sampleForm (.ok ())).state.isModalOpen = false) ∧
    ((Sectors.handleSubmit editOpenState sampleForm (.ok ())).state.editingSector = none) ∧
    (∃ m, (Sectors.handleSubmit editOpenState sampleForm (.ok ())).toasts =
      [Sectors.Toast.success m]) ∧
    ((Sectors.handleSubmit editOpenState sampleForm (.error ⟨some "42P01"⟩)).state.isModalOpen = true) ∧
    ((Sectors.handleSubmit editOpenState sampleForm (.error ⟨some "42P01"⟩)).state.editingSector =
      editOpenState.editingSector) ∧
    (∃ m, (Sectors.handleSubmit editOpenState sampleForm (.error ⟨some "42P01"⟩)).toasts =
      [Sectors.Toast.error m]) :=
  submit_success_failure_transitions editOpenState sampleForm ⟨some "42P01"⟩ rfl

/-- C8: a confirmed delete whose backend call rejects changes no state —
the target stays set and the confirm-modal flag is untouched — and emits
only the failure toast; a successful delete closes the confirm modal,
clears the target and emits the success toast. -/
theorem delete_failure_and_success (st : Sectors.PageState)
    (s : Sectors.Sector) (e : ApiError)
    (htarget : st.deletingSector = some s) :
    ((Sectors.handleConfirmDelete st (.error e)).1 = st) ∧
    ((Sectors.handleConfirmDelete st (.error e)).1.deletingSector = some s) ∧
    ((Sectors.handleConfirmDelete st (.error e)).1.isDeleteModalOpen = st.isDeleteModalOpen) ∧
    ((Sectors.handleConfirmDelete st (.error e)).2 =
      [Sectors.Toast.error "Erreur lors de la suppression du secteur."]) ∧
    ((Sectors.handleConfirmDelete st (.ok ())).1.isDeleteModalOpen = false) ∧
    ((Sectors.handleConfirmDelete st (.ok ())).1.deletingSector = none) ∧
    ((Sectors.handleConfirmDelete st (.ok ())).2 =
      [Sectors.Toast.success "Secteur supprimé avec succès !"]) := by
  refine ⟨?_, ?_, ?_, ?_, ?_, ?_, ?_⟩ <;>
    simp [Sectors.handleConfirmDelete, htarget]

/-- C8 witness: the delete outcomes at a concrete open confirm modal. -/
theorem delete_failure_and_success_witness :
    ((Sectors.handleConfirmDelete deleteOpenState (.error ⟨some "42P01"⟩)).1 = deleteOpenState) ∧
    ((Sectors.handleConfirmDelete deleteOpenState (.error ⟨some "42P01"⟩)).1.deletingSector =
      some sampleSector) ∧
    ((Sectors.handleConfirmDelete deleteOpenState (.error ⟨some "42P01"⟩)).1.isDeleteModalOpen =
      deleteOpenState.isDeleteModalOpen) ∧
    ((Sectors.handleConfirmDelete deleteOpenState (.error ⟨some "42P01"⟩)).2 =
      [Sectors.Toast.error "Erreur lors de la suppression du secteur."]) ∧
    ((Sectors.handleConfirmDelete deleteOpenState (.ok ())).1.isDeleteModalOpen = false) ∧
    ((Sectors.handleConfirmDelete deleteOpenState (.ok ())).1.deletingSector = none) ∧
    ((Sectors.handleConfirmDelete deleteOpenState (.ok ())).2 =
      [Sectors.Toast.success "Secteur supprimé avec succès !"]) :=
  delete_failure_and_success deleteOpenState sampleSector ⟨some "42P01"⟩ rfl

/-- C10: a failed update (edit-mode) submission whose error carries the
unique-constraint code `23505` shows the duplicate-identifier message,
not the generic update-failure message — the special case applies to the
update path as well. -/
theorem update_duplicate_message (st : Sectors.PageState)
    (f : Sectors.SectorFormData) (s : Sectors.Sector) (e : ApiError)
    (_hedit : st.editingSector = some s) (hcode : e.code = some "23505") :
    (Sectors.handleSubmit st f (.error e)).toasts =
      [Sectors.Toast.error "Un secteur avec cet ID existe déjà."] ∧
    (Sectors.handleSubmit st f (.error e)).toasts ≠
      [Sectors.Toast.error "Erreur lors de la mise à jour du secteur."] := by
  constructor
  · simp [Sectors.handleSubmit, hcode]
  · simp [Sectors.handleSubmit, hcode]

/-- C10 witness: an edit-mode duplicate-code failure at a concrete open
edit modal shows the duplicate message. -/
theorem update_duplicate_message_witness :
    (Sectors.handleSubmit editOpenState sampleForm (.error ⟨some "23505"⟩)).toasts =
      [Sectors.Toast.error "Un secteur avec cet ID existe déjà."] ∧
    (Sectors.handleSubmit editOpenState sampleForm (.error ⟨some "23505"⟩)).toasts ≠
      [Sectors.Toast.error "Erreur lors de la mise à jour du secteur."] :=
  update_duplicate_message editOpenState sampleForm sampleSector ⟨some "23505"⟩ rfl rfl
